import Mathlib

/-!
Shallow embedding of the kinect-xr runtime and bridge server.

Every definition below is translated from the C++ source of the repository
(`src/src/runtime/kinect_xr_runtime.cpp`, `src/src/runtime/texture_upload.cpp`,
`src/src/runtime/entry_points.cpp`, `src/src/bridge/bridge_server.cpp` and the
headers under `src/include/kinect_xr/`).  Machine integers are modelled as
`Nat` with explicit `% 2 ^ w` where overflow matters; C pointers that may be
null are modelled as `Option`; out-parameters become extra components of the
result tuple.
-/

namespace KinectXR

/-- The subset of `XrResult` codes actually signalled by this runtime
(`openxr.h` enum, referenced throughout `kinect_xr_runtime.cpp` and
`entry_points.cpp`). -/
inductive XrResult where
  | Success
  | EventUnavailable
  | ValidationFailure
  | HandleInvalid
  | SystemInvalid
  | FormFactorUnsupported
  | FormFactorUnavailable
  | ViewConfigurationTypeUnsupported
  | ReferenceSpaceUnsupported
  | SwapchainFormatUnsupported
  | FeatureUnsupported
  | SizeInsufficient
  | GraphicsDeviceInvalid
  | LimitReached
  | SessionRunning
  | SessionNotRunning
  | SessionNotReady
  | CallOrderInvalid
  | ApiVersionUnsupported
  | ExtensionNotPresent
  | EnvironmentBlendModeUnsupported
  | FunctionUnsupported
  | InitializationFailed
  | RuntimeFailure
  | ApiLayerNotPresent
  deriving DecidableEq, Repr

/-- `DeviceError` from `src/include/kinect_xr/device.h` (the values used by
the runtime and bridge paths). -/
inductive DeviceError where
  | None
  | DeviceNotFound
  | NotInitialized
  | AlreadyStreaming
  | NotStreaming
  | InitializationFailed
  | MotorControlFailed
  | InvalidParameter
  | Unknown
  deriving DecidableEq, Repr

/-- `SessionState` from `src/include/kinect_xr/runtime.h`. -/
inductive SessionState where
  | IDLE
  | READY
  | SYNCHRONIZED
  | VISIBLE
  | FOCUSED
  | STOPPING
  deriving DecidableEq, Repr

/-! ## Swapchain state machine

`SwapchainData` from `src/include/kinect_xr/runtime.h` (lines 53-76).
Metal textures are opaque `void*` slots; a slot is `none` when the pointer is
null and `some bytes` when it is a live texture whose current contents are
`bytes` (uploads overwrite the contents).  The constructor initializes
`imageCount = 3`, `currentImageIndex = 0`, `imageAcquired = false` and all
three texture slots null. -/
structure SwapchainData where
  width : Nat
  height : Nat
  format : Int
  imageCount : Nat
  currentImageIndex : Nat
  imageAcquired : Bool
  metalTextures : List (Option (List Nat))
  deriving DecidableEq, Repr

/-- The `SwapchainData` constructor (`runtime.h` lines 66-75). -/
def mkSwapchainData (w h : Nat) (fmt : Int) : SwapchainData :=
  { width := w, height := h, format := fmt, imageCount := 3,
    currentImageIndex := 0, imageAcquired := false,
    metalTextures := [none, none, none] }

/-- `KinectXRRuntime::acquireSwapchainImage` (`kinect_xr_runtime.cpp` lines
786-816), restricted to a valid swapchain handle and well-formed
`acquireInfo` (the struct-tag and null checks preceding the state logic).
Returns the result code, the index written through `*index`, and the updated
swapchain state. -/
def acquireSwapchainImage (d : SwapchainData) :
    XrResult × Option Nat × SwapchainData :=
  if d.imageAcquired then
    (.CallOrderInvalid, none, d)
  else
    (.Success, some d.currentImageIndex,
      { d with imageAcquired := true,
               currentImageIndex := (d.currentImageIndex + 1) % d.imageCount })

/-- `KinectXRRuntime::releaseSwapchainImage` (`kinect_xr_runtime.cpp` lines
861-887), same restriction. -/
def releaseSwapchainImage (d : SwapchainData) : XrResult × SwapchainData :=
  if !d.imageAcquired then
    (.CallOrderInvalid, d)
  else
    (.Success, { d with imageAcquired := false })

/-! ## Frame cache and texture upload -/

/-- `FrameCache` from `src/include/kinect_xr/runtime.h` (lines 92-112): the
per-session cache written by the Kinect callbacks.  `rgbData` holds
640*480*3 bytes, `depthData` holds 640*480 16-bit values. -/
structure FrameCache where
  rgbData : List Nat
  rgbTimestamp : Nat
  rgbValid : Bool
  depthData : List Nat
  depthTimestamp : Nat
  depthValid : Bool
  deriving DecidableEq, Repr

/-- `convertRGB888toBGRA8888` from `texture_upload.cpp` (lines 10-22): per
pixel output bytes are B, G, R, 255. -/
def convertRGB888toBGRA8888 (rgb : List Nat) (width height : Nat) : List Nat :=
  (List.range (width * height)).flatMap fun p =>
    [rgb.getD (p * 3 + 2) 0, rgb.getD (p * 3 + 1) 0, rgb.getD (p * 3) 0, 255]

/-- `uploadRGBTexture` from `texture_upload.cpp` (lines 26-77).  The Metal
upload (`metal::uploadTextureData`) is modelled as replacing the contents of
the target texture slot; the function returns the success flag and the
updated swapchain.  Note the target slot is
`metalTextures[swapchainData->currentImageIndex]`. -/
def uploadRGBTexture (cache : FrameCache) (d : SwapchainData) :
    Bool × SwapchainData :=
  if d.format ≠ 80 then (false, d)
  else if !d.imageAcquired then (false, d)
  else
    match d.metalTextures.getD d.currentImageIndex none with
    | none => (false, d)
    | some _ =>
      if !cache.rgbValid then (false, d)
      else
        let bgra := convertRGB888toBGRA8888 cache.rgbData 640 480
        (true,
         { d with metalTextures := d.metalTextures.set d.currentImageIndex (some bgra) })

/-- `uploadDepthTexture` from `texture_upload.cpp` (lines 81-128); the depth
u16 buffer is passed through unchanged.  The target slot is again
`metalTextures[swapchainData->currentImageIndex]`. -/
def uploadDepthTexture (cache : FrameCache) (d : SwapchainData) :
    Bool × SwapchainData :=
  if d.format ≠ 13 then (false, d)
  else if !d.imageAcquired then (false, d)
  else
    match d.metalTextures.getD d.currentImageIndex none with
    | none => (false, d)
    | some _ =>
      if !cache.depthValid then (false, d)
      else
        (true,
         { d with metalTextures := d.metalTextures.set d.currentImageIndex (some cache.depthData) })

/-- `KinectXRRuntime::waitSwapchainImage` (`kinect_xr_runtime.cpp` lines
818-859), restricted to a valid swapchain with a live parent session and a
well-formed `waitInfo`.  After the acquired check it performs the
format-dispatched texture upload and returns success immediately (the
timeout is ignored). -/
def waitSwapchainImage (cache : FrameCache) (d : SwapchainData) :
    XrResult × SwapchainData :=
  if !d.imageAcquired then
    (.CallOrderInvalid, d)
  else if d.format = 80 then
    (.Success, (uploadRGBTexture cache d).2)
  else if d.format = 13 then
    (.Success, (uploadDepthTexture cache d).2)
  else
    (.Success, d)

/-- One acquire-release round on a swapchain: the acquired index and the
resulting state (`acquireSwapchainImage` then `releaseSwapchainImage`). -/
def acquireReleaseOnce (d : SwapchainData) : Option Nat × SwapchainData :=
  let a := acquireSwapchainImage d
  let r := releaseSwapchainImage a.2.2
  (a.2.1, r.2)

/-- The indices output by `n` successive acquire-release rounds. -/
def acquireReleaseSeq (d : SwapchainData) : Nat → List (Option Nat)
  | 0 => []
  | n + 1 =>
    let o := acquireReleaseOnce d
    o.1 :: acquireReleaseSeq o.2 n

/-- A fresh 640×480 color swapchain whose three texture slots are live
(contents 7, 8, 9): the input for the upload-slot check. -/
def uploadBugSwapchain : SwapchainData :=
  { mkSwapchainData 640 480 80 with
      metalTextures := [some [7], some [8], some [9]] }

/-- A frame cache holding one valid RGB frame (all-zero pixels). -/
def uploadBugCache : FrameCache :=
  { rgbData := List.replicate (640 * 480 * 3) 0, rgbTimestamp := 0,
    rgbValid := true,
    depthData := List.replicate (640 * 480) 0, depthTimestamp := 0,
    depthValid := false }

/-! ## Bridge server (`bridge_server.h`, `bridge_server.cpp`) -/

/-- Stream type codes from `bridge_server.h` lines 29-30. -/
def STREAM_TYPE_RGB : Nat := 0x0001

def STREAM_TYPE_DEPTH : Nat := 0x0002

/-- Frame dimensions and sizes from `bridge_server.h` lines 33-36. -/
def FRAME_WIDTH : Nat := 640

def FRAME_HEIGHT : Nat := 480

def RGB_FRAME_SIZE : Nat := FRAME_WIDTH * FRAME_HEIGHT * 3

def DEPTH_FRAME_SIZE : Nat := FRAME_WIDTH * FRAME_HEIGHT * 2

/-- `BridgeFrameCache` from `bridge_server.h` lines 49-64.  Both pixel
buffers are byte vectors (`depthData` stores the u16 stream as raw
little-endian bytes); `frameId` is a `uint32_t` counter. -/
structure BridgeFrameCache where
  rgbData : List Nat
  rgbTimestamp : Nat
  rgbValid : Bool
  depthData : List Nat
  depthTimestamp : Nat
  depthValid : Bool
  frameId : Nat
  deriving DecidableEq, Repr

/-- `BridgeServer::onDepthFrame` (`bridge_server.cpp` lines 643-654): memcpy
`DEPTH_FRAME_SIZE` bytes into the depth buffer, stamp, mark valid and
increment the shared `frameId` (u32 arithmetic).  The `depthFrameCount_`
FPS statistic lives outside the cache and is not modelled here. -/
def onDepthFrame (cache : BridgeFrameCache) (data : List Nat) (timestamp : Nat) :
    BridgeFrameCache :=
  { cache with
      depthData := data.take DEPTH_FRAME_SIZE ++ cache.depthData.drop DEPTH_FRAME_SIZE,
      depthTimestamp := timestamp,
      depthValid := true,
      frameId := (cache.frameId + 1) % 2 ^ 32 }

/-- `BridgeServer::onVideoFrame` (`bridge_server.cpp` lines 656-666): memcpy
`RGB_FRAME_SIZE` bytes into the RGB buffer, stamp and mark valid; `frameId`
is not incremented.  The `rgbFrameCount_` FPS statistic lives outside the
cache and is not modelled here. -/
def onVideoFrame (cache : BridgeFrameCache) (data : List Nat) (timestamp : Nat) :
    BridgeFrameCache :=
  { cache with
      rgbData := data.take RGB_FRAME_SIZE ++ cache.rgbData.drop RGB_FRAME_SIZE,
      rgbTimestamp := timestamp,
      rgbValid := true }

/-- The binary message built by `BridgeServer::broadcastFrame`
(`bridge_server.cpp` lines 611-627): an 8-byte little-endian header
(`frameId` u32, `streamType` u16, two reserved zero bytes) followed by the
pixel payload. -/
def broadcastFrameMessage (streamType : Nat) (data : List Nat) (frameId : Nat) :
    List Nat :=
  [frameId % 256, frameId / 2 ^ 8 % 256, frameId / 2 ^ 16 % 256, frameId / 2 ^ 24 % 256,
   streamType % 256, streamType / 2 ^ 8 % 256, 0, 0] ++ data

/-! ## Bridge motor gateway (`bridge_server.cpp` lines 252-416)

Each WebSocket motor-message handler is modelled as a pure function of the
parsed request, the device-connection flag, the rate-limit clock (the
current time and the stored `lastMotorCommand_` time, both in
milliseconds) and the results the device driver would return.  A handler
produces the reply it sends, the list of driver calls it makes (in order),
and the updated `lastMotorCommand_` time. -/

/-- `LEDState` from `device.h` as used by the bridge. -/
inductive LEDState where
  | Off
  | Green
  | Red
  | Yellow
  | BlinkGreen
  | BlinkRedYellow
  deriving DecidableEq, Repr

/-- A call made into the `KinectDevice` driver by a motor handler. -/
inductive DriverCall where
  | setTiltAngle (angle : Int)
  | setLED (state : LEDState)
  | getMotorStatus
  deriving DecidableEq, Repr

/-- A reply sent to the client by a motor handler (`motor.error` carries the
error code; `motor.status` carries the polled status). -/
inductive MotorReply where
  | motorError (code : String)
  | motorStatus
  deriving DecidableEq, Repr

/-- The string → `LEDState` mapping in `handleMotorSetLed`
(`bridge_server.cpp` lines 317-334); `none` triggers `INVALID_LED_STATE`. -/
def parseLedState (s : String) : Option LEDState :=
  if s = "off" then some .Off
  else if s = "green" then some .Green
  else if s = "red" then some .Red
  else if s = "yellow" then some .Yellow
  else if s = "blink_green" then some .BlinkGreen
  else if s = "blink_red_yellow" then some .BlinkRedYellow
  else none

/-- `BridgeServer::handleMotorSetTilt` (`bridge_server.cpp` lines 252-301).
`nowMs`/`lastMs` model `now` and `lastMotorCommand_`; `tiltResult` and
`statusResult` are the driver results for the two calls it may make. -/
def handleMotorSetTilt (deviceConnected : Bool) (nowMs lastMs : Int) (angle : Int)
    (tiltResult statusResult : DeviceError) :
    Option MotorReply × List DriverCall × Int :=
  if !deviceConnected then
    (some (.motorError "DEVICE_NOT_CONNECTED"), [], lastMs)
  else if nowMs - lastMs < 500 then
    (some (.motorError "RATE_LIMITED"), [], lastMs)
  else if tiltResult ≠ .None then
    (some (.motorError "MOTOR_CONTROL_FAILED"), [.setTiltAngle angle], nowMs)
  else if statusResult ≠ .None then
    (some (.motorError "MOTOR_STATUS_FAILED"), [.setTiltAngle angle, .getMotorStatus], nowMs)
  else
    (some .motorStatus, [.setTiltAngle angle, .getMotorStatus], nowMs)

/-- `BridgeServer::handleMotorSetLed` (`bridge_server.cpp` lines 303-353).
Note there is no rate-limit check and `lastMotorCommand_` is not updated;
when the post-set status poll fails no reply is sent at all. -/
def handleMotorSetLed (deviceConnected : Bool) (nowMs lastMs : Int) (stateStr : String)
    (ledResult statusResult : DeviceError) :
    Option MotorReply × List DriverCall × Int :=
  if !deviceConnected then
    (some (.motorError "DEVICE_NOT_CONNECTED"), [], lastMs)
  else
    match parseLedState stateStr with
    | none => (some (.motorError "INVALID_LED_STATE"), [], lastMs)
    | some st =>
      if ledResult ≠ .None then
        (some (.motorError "LED_CONTROL_FAILED"), [.setLED st], lastMs)
      else if statusResult = .None then
        (some .motorStatus, [.setLED st, .getMotorStatus], lastMs)
      else
        (none, [.setLED st, .getMotorStatus], lastMs)

/-- `BridgeServer::handleMotorReset` (`bridge_server.cpp` lines 355-396):
rate-limited like `handleMotorSetTilt`, then sets the tilt to 0. -/
def handleMotorReset (deviceConnected : Bool) (nowMs lastMs : Int)
    (tiltResult statusResult : DeviceError) :
    Option MotorReply × List DriverCall × Int :=
  if !deviceConnected then
    (some (.motorError "DEVICE_NOT_CONNECTED"), [], lastMs)
  else if nowMs - lastMs < 500 then
    (some (.motorError "RATE_LIMITED"), [], lastMs)
  else if tiltResult ≠ .None then
    (some (.motorError "MOTOR_CONTROL_FAILED"), [.setTiltAngle 0], nowMs)
  else if statusResult ≠ .None then
    (some (.motorError "MOTOR_STATUS_FAILED"), [.setTiltAngle 0, .getMotorStatus], nowMs)
  else
    (some .motorStatus, [.setTiltAngle 0, .getMotorStatus], nowMs)

/-- `BridgeServer::handleMotorGetStatus` (`bridge_server.cpp` lines
398-416).  Note there is no rate-limit check and `lastMotorCommand_` is not
updated. -/
def handleMotorGetStatus (deviceConnected : Bool) (nowMs lastMs : Int)
    (statusResult : DeviceError) :
    Option MotorReply × List DriverCall × Int :=
  if !deviceConnected then
    (some (.motorError "DEVICE_NOT_CONNECTED"), [], lastMs)
  else if statusResult ≠ .None then
    (some (.motorError "MOTOR_STATUS_FAILED"), [.getMotorStatus], lastMs)
  else
    (some .motorStatus, [.getMotorStatus], lastMs)

/-! ## Enumeration functions (two-call idiom)

Out-parameters: `countPtrValid` models whether the `*CountOutput` pointer is
non-null; the buffer pointer is `none` when null, `some` the pointed-to
array otherwise.  Each function returns the result code, the value written
through `*CountOutput` (`none` when the code returns before writing it) and
the final contents of the buffer. -/

/-- `XrReferenceSpaceType` values used by the runtime. -/
inductive XrReferenceSpaceType where
  | View
  | Local
  | Stage
  deriving DecidableEq, Repr

/-- `KinectXRRuntime::enumerateSwapchainFormats` (`kinect_xr_runtime.cpp`
lines 590-631).  The supported format list is `[80, 13]`. -/
def enumerateSwapchainFormats (sessionValid : Bool) (cap : Nat)
    (countPtrValid : Bool) (formats : Option (List Int)) :
    XrResult × Option Nat × Option (List Int) :=
  if !countPtrValid then (.ValidationFailure, none, formats)
  else if !sessionValid then (.HandleInvalid, none, formats)
  else if cap = 0 then (.Success, some 2, formats)
  else if cap < 2 then (.SizeInsufficient, some 2, formats)
  else
    match formats with
    | none => (.ValidationFailure, none, none)
    | some fs => (.Success, some 2, some ([80, 13] ++ fs.drop 2))

/-- `KinectXRRuntime::enumerateReferenceSpaces` (`kinect_xr_runtime.cpp`
lines 459-498).  The supported space list is `[View, Local, Stage]`. -/
def enumerateReferenceSpaces (sessionValid : Bool) (cap : Nat)
    (countPtrValid : Bool) (spaces : Option (List XrReferenceSpaceType)) :
    XrResult × Option Nat × Option (List XrReferenceSpaceType) :=
  if !countPtrValid then (.ValidationFailure, none, spaces)
  else if !sessionValid then (.HandleInvalid, none, spaces)
  else if cap = 0 then (.Success, some 3, spaces)
  else if cap < 3 then (.SizeInsufficient, some 3, spaces)
  else
    match spaces with
    | none => (.ValidationFailure, none, none)
    | some ss => (.Success, some 3, some ([.View, .Local, .Stage] ++ ss.drop 3))

/-- `XrExtensionProperties`: struct type tag, extension name, version. -/
structure XrExtensionProperties where
  type : Nat
  extensionName : String
  extensionVersion : Nat
  deriving DecidableEq, Repr

/-- `XR_TYPE_EXTENSION_PROPERTIES` struct tag (openxr.h). -/
def XR_TYPE_EXTENSION_PROPERTIES : Nat := 2

/-- The runtime's supported extension names (`entry_points.cpp` lines
234-237). -/
def supportedExtensions : List String :=
  ["XR_KHR_composition_layer_depth", "XR_KHR_metal_enable"]

/-- The fill loop of `xrEnumerateInstanceExtensionProperties`
(`entry_points.cpp` lines 258-265): for each entry, validate the caller's
struct tag, then write the name and version.  A bad tag aborts with
`ValidationFailure`, leaving earlier entries already written. -/
def fillExtensionProps (props : List XrExtensionProperties) :
    Nat → List String → XrResult × List XrExtensionProperties
  | _, [] => (.Success, props)
  | i, name :: rest =>
    let cur := props.getD i ⟨0, "", 0⟩
    if cur.type ≠ XR_TYPE_EXTENSION_PROPERTIES then
      (.ValidationFailure, props)
    else
      fillExtensionProps
        (props.set i { cur with extensionName := name, extensionVersion := 1 })
        (i + 1) rest

/-- `xrEnumerateInstanceExtensionProperties` (`entry_points.cpp` lines
218-269).  `layerNamePresent` models a non-null `layerName` argument. -/
def xrEnumerateInstanceExtensionProperties (layerNamePresent : Bool) (cap : Nat)
    (countPtrValid : Bool) (props : Option (List XrExtensionProperties)) :
    XrResult × Option Nat × Option (List XrExtensionProperties) :=
  if !countPtrValid then (.ValidationFailure, none, props)
  else if layerNamePresent then (.ApiLayerNotPresent, none, props)
  else if cap = 0 then (.Success, some 2, props)
  else if cap < 2 then (.SizeInsufficient, some 2, props)
  else
    match props with
    | none => (.ValidationFailure, none, none)
    | some ps =>
      let r := fillExtensionProps ps 0 supportedExtensions
      if r.1 = .Success then (.Success, some 2, some r.2)
      else (r.1, none, some r.2)

/-! ## `enumerateSwapchainImages` (C10) -/

/-- `XrSwapchainImageMetalKHR`: struct tag, `next` pointer (0 = null) and
the Metal texture slot (as in `SwapchainData.metalTextures`). -/
structure XrSwapchainImageMetalKHR where
  type : Nat
  next : Nat
  texture : Option (List Nat)
  deriving DecidableEq, Repr

/-- `XR_TYPE_SWAPCHAIN_IMAGE_METAL_KHR` struct tag (openxr_platform.h). -/
def XR_TYPE_SWAPCHAIN_IMAGE_METAL_KHR : Nat := 1000457001

/-- The fill loop of `enumerateSwapchainImages` (`kinect_xr_runtime.cpp`
lines 776-780): every entry `i < imageCount` is overwritten with the tag,
a null `next` and the swapchain's `i`-th texture pointer. -/
def fillMetalImages (images : List XrSwapchainImageMetalKHR)
    (textures : List (Option (List Nat))) (count : Nat) :
    List XrSwapchainImageMetalKHR :=
  (List.range count).foldl
    (fun acc i =>
      acc.set i ⟨XR_TYPE_SWAPCHAIN_IMAGE_METAL_KHR, 0, textures.getD i none⟩)
    images

/-- `KinectXRRuntime::enumerateSwapchainImages` (`kinect_xr_runtime.cpp`
lines 740-784), restricted to a valid swapchain handle `d`.  Only
`images[0].type` is validated before the fill loop runs. -/
def enumerateSwapchainImages (d : SwapchainData) (cap : Nat)
    (countPtrValid : Bool) (images : Option (List XrSwapchainImageMetalKHR)) :
    XrResult × Option Nat × Option (List XrSwapchainImageMetalKHR) :=
  if !countPtrValid then (.ValidationFailure, none, images)
  else if cap = 0 then (.Success, some d.imageCount, images)
  else if cap < d.imageCount then (.SizeInsufficient, some d.imageCount, images)
  else
    match images with
    | none => (.ValidationFailure, none, none)
    | some imgs =>
      if (imgs.headD ⟨0, 0, none⟩).type ≠ XR_TYPE_SWAPCHAIN_IMAGE_METAL_KHR then
        (.ValidationFailure, none, some imgs)
      else
        (.Success, some d.imageCount,
          some (fillMetalImages imgs d.metalTextures d.imageCount))

/-! ## Runtime core: instances, sessions, event queue
(`kinect_xr_runtime.cpp`)

Handles are the `uint64` counter values minted by the runtime
(`nextInstanceId_` etc. start at 1).  Null pointers crossing the ABI are
modelled as the value 0.  The per-table mutexes serialize the operations,
so each entry point is a function from runtime state to runtime state. -/

/-- openxr.h struct type tags used by the runtime. -/
def XR_TYPE_INSTANCE_CREATE_INFO : Nat := 3

def XR_TYPE_SYSTEM_GET_INFO : Nat := 4

def XR_TYPE_SESSION_CREATE_INFO : Nat := 8

def XR_TYPE_SESSION_BEGIN_INFO : Nat := 10

def XR_TYPE_EVENT_DATA_BUFFER : Nat := 16

def XR_TYPE_GRAPHICS_BINDING_METAL_KHR : Nat := 1000457000

/-- `XR_FORM_FACTOR_HEAD_MOUNTED_DISPLAY` (openxr.h). -/
def XR_FORM_FACTOR_HEAD_MOUNTED_DISPLAY : Nat := 1

/-- `XR_VIEW_CONFIGURATION_TYPE_PRIMARY_MONO` (openxr.h). -/
def XR_VIEW_CONFIGURATION_TYPE_PRIMARY_MONO : Nat := 1

/-- `XR_VIEW_CONFIGURATION_TYPE_MAX_ENUM`, the constructor's sentinel value
for `SessionData::viewConfigurationType`. -/
def XR_VIEW_CONFIGURATION_TYPE_MAX_ENUM : Nat := 0x7FFFFFFF

/-- `XR_CURRENT_API_VERSION` packed as `major << 48 | minor << 32 | patch`
(major 1). -/
def XR_CURRENT_API_VERSION : Nat := 1 * 2 ^ 48 + 34

/-- `XR_VERSION_MAJOR` (openxr.h): bits 48-63. -/
def XR_VERSION_MAJOR (v : Nat) : Nat := v / 2 ^ 48 % 2 ^ 16

/-- `XrEventDataSessionStateChanged` as stored in an instance's event queue
(`queueSessionStateChanged`, `kinect_xr_runtime.cpp` lines 25-35; the
`time` field is always 0 and omitted). -/
structure XrEventDataSessionStateChanged where
  session : Nat
  state : SessionState
  deriving DecidableEq, Repr

/-- `InstanceData` from `runtime.h` lines 143-158.  `SystemData` carries
only the minted system id (its form factor is always head-mounted display),
so the optional owned system is `Option Nat`. -/
structure InstanceData where
  handle : Nat
  applicationName : String
  applicationVersion : Nat
  engineName : String
  engineVersion : Nat
  apiVersion : Nat
  system : Option Nat
  eventQueue : List XrEventDataSessionStateChanged
  deriving DecidableEq, Repr

/-- `FrameState` from `runtime.h` lines 79-88. -/
structure FrameState where
  frameInProgress : Bool
  lastFrameTime : Nat
  frameCount : Nat
  deriving DecidableEq, Repr

/-- `SessionData` from `runtime.h` lines 115-140.  `deviceActive` models
whether the owned `kinectDevice` unique_ptr is non-null; the Metal device
pointer derived at creation is not used by any modelled operation and is
omitted. -/
structure SessionData where
  handle : Nat
  inst : Nat
  systemId : Nat
  state : SessionState
  viewConfigurationType : Nat
  metalCommandQueue : Nat
  frameState : FrameState
  frameCache : FrameCache
  deviceActive : Bool
  deriving DecidableEq, Repr

/-- The `FrameCache()` constructor (`runtime.h` lines 105-111). -/
def mkFrameCache : FrameCache :=
  { rgbData := List.replicate (640 * 480 * 3) 0, rgbTimestamp := 0,
    rgbValid := false,
    depthData := List.replicate (640 * 480) 0, depthTimestamp := 0,
    depthValid := false }

/-- The `SessionData` constructor (`runtime.h` lines 132-139). -/
def mkSessionData (h inst sysId : Nat) : SessionData :=
  { handle := h, inst := inst, systemId := sysId, state := .IDLE,
    viewConfigurationType := XR_VIEW_CONFIGURATION_TYPE_MAX_ENUM,
    metalCommandQueue := 0,
    frameState := { frameInProgress := false, lastFrameTime := 0, frameCount := 0 },
    frameCache := mkFrameCache, deviceActive := false }

/-- The `KinectXRRuntime` singleton's state (`runtime.h` lines 238-257):
the typed handle tables and their id counters (spaces and swapchains are
modelled separately and not needed here). -/
structure RuntimeState where
  instances : List (Nat × InstanceData)
  nextInstanceId : Nat
  nextSystemId : Nat
  sessions : List (Nat × SessionData)
  nextSessionId : Nat
  deriving DecidableEq, Repr

/-- The initial (process-start) runtime state. -/
def initialRuntimeState : RuntimeState :=
  { instances := [], nextInstanceId := 1, nextSystemId := 1,
    sessions := [], nextSessionId := 1 }

/-- `instances_.find(instance)`. -/
def lookupInstance (st : RuntimeState) (h : Nat) : Option InstanceData :=
  (st.instances.find? (fun p => p.1 = h)).map Prod.snd

/-- `sessions_.find(session)`. -/
def lookupSession (st : RuntimeState) (h : Nat) : Option SessionData :=
  (st.sessions.find? (fun p => p.1 = h)).map Prod.snd

/-- In-place update of one instance table entry. -/
def updateInstance (st : RuntimeState) (h : Nat)
    (f : InstanceData → InstanceData) : RuntimeState :=
  { st with instances :=
      st.instances.map (fun p => if p.1 = h then (p.1, f p.2) else p) }

/-- In-place update of one session table entry. -/
def updateSession (st : RuntimeState) (h : Nat)
    (f : SessionData → SessionData) : RuntimeState :=
  { st with sessions :=
      st.sessions.map (fun p => if p.1 = h then (p.1, f p.2) else p) }

/-- `queueSessionStateChanged` (`kinect_xr_runtime.cpp` lines 25-35). -/
def queueSessionStateChanged (inst : InstanceData) (session : Nat)
    (newState : SessionState) : InstanceData :=
  { inst with eventQueue := inst.eventQueue ++ [⟨session, newState⟩] }

/-- `XrInstanceCreateInfo` (the fields the runtime reads). -/
structure XrInstanceCreateInfo where
  type : Nat
  applicationName : String
  applicationVersion : Nat
  engineName : String
  engineVersion : Nat
  apiVersion : Nat
  enabledExtensionNames : List String
  deriving DecidableEq, Repr

/-- `KinectXRRuntime::createInstance` (`kinect_xr_runtime.cpp` lines
42-85), with non-null `createInfo`/`instance` arguments. -/
def createInstance (st : RuntimeState) (info : XrInstanceCreateInfo) :
    XrResult × Option Nat × RuntimeState :=
  if info.type ≠ XR_TYPE_INSTANCE_CREATE_INFO then
    (.ValidationFailure, none, st)
  else if XR_VERSION_MAJOR info.apiVersion > XR_VERSION_MAJOR XR_CURRENT_API_VERSION then
    (.ApiVersionUnsupported, none, st)
  else if !info.enabledExtensionNames.all
      (fun n => n = "XR_KHR_composition_layer_depth" ∨ n = "XR_KHR_metal_enable") then
    (.ExtensionNotPresent, none, st)
  else
    let handle := st.nextInstanceId
    let data : InstanceData :=
      { handle := handle, applicationName := info.applicationName,
        applicationVersion := info.applicationVersion,
        engineName := info.engineName, engineVersion := info.engineVersion,
        apiVersion := info.apiVersion, system := none, eventQueue := [] }
    (.Success, some handle,
      { st with instances := st.instances ++ [(handle, data)],
                nextInstanceId := st.nextInstanceId + 1 })

/-- `KinectXRRuntime::getSystem` (`kinect_xr_runtime.cpp` lines 115-144),
with non-null `getInfo`/`systemId` arguments. -/
def getSystem (st : RuntimeState) (inst : Nat) (getInfoType formFactor : Nat) :
    XrResult × Option Nat × RuntimeState :=
  if getInfoType ≠ XR_TYPE_SYSTEM_GET_INFO then
    (.ValidationFailure, none, st)
  else
    match lookupInstance st inst with
    | none => (.HandleInvalid, none, st)
    | some data =>
      if formFactor ≠ XR_FORM_FACTOR_HEAD_MOUNTED_DISPLAY then
        (.FormFactorUnsupported, none, st)
      else
        match data.system with
        | some sysId => (.Success, some sysId, st)
        | none =>
          let sysId := st.nextSystemId
          (.Success, some sysId,
            updateInstance { st with nextSystemId := st.nextSystemId + 1 } inst
              (fun d => { d with system := some sysId }))

/-- One structure of the `next` chain of `XrSessionCreateInfo`: a struct
tag and, for the Metal binding, the command-queue pointer. -/
structure XrGraphicsBindingMetal where
  type : Nat
  commandQueue : Nat
  deriving DecidableEq, Repr

/-- `XrSessionCreateInfo` (the fields the runtime reads; `nextChain` is the
`next` pointer chain walked for the Metal binding). -/
structure XrSessionCreateInfo where
  type : Nat
  nextChain : List XrGraphicsBindingMetal
  systemId : Nat
  deriving DecidableEq, Repr

/-- `KinectXRRuntime::createSession` (`kinect_xr_runtime.cpp` lines
195-271), with non-null `createInfo`/`session` arguments. -/
def createSession (st : RuntimeState) (inst : Nat) (info : XrSessionCreateInfo) :
    XrResult × Option Nat × RuntimeState :=
  if info.type ≠ XR_TYPE_SESSION_CREATE_INFO then
    (.ValidationFailure, none, st)
  else
    match lookupInstance st inst with
    | none => (.HandleInvalid, none, st)
    | some instData =>
      if instData.system ≠ some info.systemId then
        (.SystemInvalid, none, st)
      else
        match info.nextChain.find? (fun b => b.type = XR_TYPE_GRAPHICS_BINDING_METAL_KHR) with
        | none => (.GraphicsDeviceInvalid, none, st)
        | some binding =>
          if binding.commandQueue = 0 then
            (.GraphicsDeviceInvalid, none, st)
          else if st.sessions.any (fun p => p.2.inst = inst) then
            (.LimitReached, none, st)
          else
            let handle := st.nextSessionId
            let data := { mkSessionData handle inst info.systemId with
                            metalCommandQueue := binding.commandQueue }
            let st1 := { st with sessions := st.sessions ++ [(handle, data)],
                                 nextSessionId := st.nextSessionId + 1 }
            -- IDLE → READY transition and event, only when the parent
            -- instance is (still) present in the instance table
            let st2 :=
              match lookupInstance st1 inst with
              | none => st1
              | some _ =>
                updateInstance
                  (updateSession st1 handle (fun s => { s with state := .READY }))
                  inst (fun d => queueSessionStateChanged d handle .READY)
            (.Success, some handle, st2)

/-- `XrSessionBeginInfo` (the fields the runtime reads). -/
structure XrSessionBeginInfo where
  type : Nat
  primaryViewConfigurationType : Nat
  deriving DecidableEq, Repr

/-- `KinectXRRuntime::beginSession` (`kinect_xr_runtime.cpp` lines
309-394), with a non-null `beginInfo`.  `deviceInit` and `deviceStart` are
the results of `kinectDevice->initialize(config)` and
`kinectDevice->startStreams()`; the callbacks registered in between write
into the session's frame cache from the event-pump thread and have no
effect on this state. -/
def beginSession (deviceInit deviceStart : DeviceError) (st : RuntimeState)
    (session : Nat) (info : XrSessionBeginInfo) : XrResult × RuntimeState :=
  if info.type ≠ XR_TYPE_SESSION_BEGIN_INFO then
    (.ValidationFailure, st)
  else
    match lookupSession st session with
    | none => (.HandleInvalid, st)
    | some sd =>
      if info.primaryViewConfigurationType ≠ XR_VIEW_CONFIGURATION_TYPE_PRIMARY_MONO then
        (.ViewConfigurationTypeUnsupported, st)
      else if sd.state ≠ .READY then
        (.SessionNotReady, st)
      else
        let st1 := updateSession st session
          (fun s => { s with viewConfigurationType := info.primaryViewConfigurationType })
        if deviceInit ≠ .None then
          -- kinectDevice.reset(): no live device
          (.FormFactorUnavailable, st1)
        else if deviceStart ≠ .None then
          (.RuntimeFailure, st1)
        else
          let st2 := updateSession st1 session
            (fun s => { s with deviceActive := true, state := .SYNCHRONIZED })
          let st3 :=
            match lookupInstance st2 sd.inst with
            | none => st2
            | some _ =>
              updateSession
                (updateInstance st2 sd.inst (fun d =>
                  queueSessionStateChanged
                    (queueSessionStateChanged
                      (queueSessionStateChanged d session .SYNCHRONIZED)
                      session .VISIBLE)
                    session .FOCUSED))
                session (fun s => { s with state := .FOCUSED })
          (.Success, st3)

/-- `KinectXRRuntime::endSession` (`kinect_xr_runtime.cpp` lines 396-429). -/
def endSession (st : RuntimeState) (session : Nat) : XrResult × RuntimeState :=
  match lookupSession st session with
  | none => (.HandleInvalid, st)
  | some sd =>
    if sd.state = .IDLE ∨ sd.state = .STOPPING then
      (.SessionNotRunning, st)
    else
      -- stopStreams + kinectDevice.reset(), then STOPPING
      let st1 := updateSession st session
        (fun s => { s with deviceActive := false, state := .STOPPING })
      let st2 :=
        match lookupInstance st1 sd.inst with
        | none => st1
        | some _ =>
          updateSession
            (updateInstance st1 sd.inst (fun d =>
              queueSessionStateChanged
                (queueSessionStateChanged d session .STOPPING)
                session .IDLE))
            session (fun s => { s with state := .IDLE })
      (.Success, st2)

/-- `KinectXRRuntime::destroySession` (`kinect_xr_runtime.cpp` lines
273-291). -/
def destroySession (st : RuntimeState) (session : Nat) : XrResult × RuntimeState :=
  match lookupSession st session with
  | none => (.HandleInvalid, st)
  | some sd =>
    if sd.state = .SYNCHRONIZED ∨ sd.state = .VISIBLE ∨ sd.state = .FOCUSED then
      (.SessionRunning, st)
    else
      (.Success, { st with sessions := st.sessions.filter (fun p => p.1 ≠ session) })

/-- `KinectXRRuntime::pollEvent` (`kinect_xr_runtime.cpp` lines 431-457),
with a non-null `eventData`.  `eventTypeOk` models the
`eventData->type == XR_TYPE_EVENT_DATA_BUFFER` precondition; the copied-out
event (if any) is returned. -/
def pollEvent (st : RuntimeState) (inst : Nat) (eventTypeOk : Bool) :
    XrResult × Option XrEventDataSessionStateChanged × RuntimeState :=
  if !eventTypeOk then
    (.ValidationFailure, none, st)
  else
    match lookupInstance st inst with
    | none => (.HandleInvalid, none, st)
    | some data =>
      match data.eventQueue with
      | [] => (.EventUnavailable, none, st)
      | e :: rest =>
        (.Success, some e,
          updateInstance st inst (fun d => { d with eventQueue := rest }))

/-! ## The concrete lifecycle scenario

A fresh runtime, one instance (apiVersion current, no extensions), its HMD
system, a session bound to a non-null fake command queue, then begin → end
→ destroy.  Used for the session-lifecycle law and the end-from-Ready
counterexample. -/

/-- Instance creation info: appName "T", current API version. -/
def lcInstanceInfo : XrInstanceCreateInfo :=
  ⟨XR_TYPE_INSTANCE_CREATE_INFO, "T", 1, "", 0, XR_CURRENT_API_VERSION, []⟩

/-- Session creation info: the Metal binding with command queue 0x1. -/
def lcSessionInfo : XrSessionCreateInfo :=
  ⟨XR_TYPE_SESSION_CREATE_INFO, [⟨XR_TYPE_GRAPHICS_BINDING_METAL_KHR, 1⟩], 1⟩

/-- Session begin info: primary-mono view configuration. -/
def lcBeginInfo : XrSessionBeginInfo :=
  ⟨XR_TYPE_SESSION_BEGIN_INFO, XR_VIEW_CONFIGURATION_TYPE_PRIMARY_MONO⟩

/-- `xrCreateInstance` on the fresh runtime. -/
def lcCreateInstance : XrResult × Option Nat × RuntimeState :=
  createInstance initialRuntimeState lcInstanceInfo

/-- `xrGetSystem` (HMD form factor) on the new instance. -/
def lcGetSystem : XrResult × Option Nat × RuntimeState :=
  getSystem lcCreateInstance.2.2 1 XR_TYPE_SYSTEM_GET_INFO
    XR_FORM_FACTOR_HEAD_MOUNTED_DISPLAY

/-- `xrCreateSession` on the instance and its system. -/
def lcCreateSession : XrResult × Option Nat × RuntimeState :=
  createSession lcGetSystem.2.2 1 lcSessionInfo

/-- `xrBeginSession`, with the device driver initializing and starting
successfully. -/
def lcBeginSession : XrResult × RuntimeState :=
  beginSession .None .None lcCreateSession.2.2 1 lcBeginInfo

/-- `xrEndSession` after the successful begin. -/
def lcEndSession : XrResult × RuntimeState :=
  endSession lcBeginSession.2 1

/-- `xrDestroySession` after the end. -/
def lcDestroySession : XrResult × RuntimeState :=
  destroySession lcEndSession.2 1

/-- `n` successive `pollEvent` calls (with a well-typed event buffer),
collecting each call's result code and copied-out event. -/
def pollSeq (st : RuntimeState) (inst : Nat) :
    Nat → List (XrResult × Option XrEventDataSessionStateChanged)
  | 0 => []
  | n + 1 =>
    let p := pollEvent st inst true
    (p.1, p.2.1) :: pollSeq p.2.2 inst n

/-! ## Mock depth frame generator
(`BridgeServer::generateMockDepthFrame`, `bridge_server.cpp` lines 680-701)

The C++ computation is IEEE single-precision (`float` with `std::sqrt` and
`std::sin`); it is idealized here as exact real arithmetic.  The
`static_cast<uint16_t>` truncation is modelled as `Nat.floor`, which is
faithful because the argument always lies in [480, 5646], inside the u16
range (the bounds proved below have a margin of hundreds of millimetres,
far beyond any single-precision rounding error). -/

/-- `dx = (x - FRAME_WIDTH / 2.0f) / (FRAME_WIDTH / 2.0f)` for a pixel
column `x`. -/
noncomputable def mockDx (x : Fin 640) : ℝ :=
  (((x : Nat) : ℝ) - 640 / 2) / (640 / 2)

/-- `dy = (y - FRAME_HEIGHT / 2.0f) / (FRAME_HEIGHT / 2.0f)` for a pixel
row `y`. -/
noncomputable def mockDy (y : Fin 480) : ℝ :=
  (((y : Nat) : ℝ) - 480 / 2) / (480 / 2)

/-- `dist = sqrt(dx*dx + dy*dy)`. -/
noncomputable def mockDist (x : Fin 640) (y : Fin 480) : ℝ :=
  Real.sqrt (mockDx x * mockDx x + mockDy y * mockDy y)

/-- `wave = sin(dist * 10.0f - frameId * 0.1f) * 0.1f`. -/
noncomputable def mockWave (frameId : Nat) (x : Fin 640) (y : Fin 480) : ℝ :=
  Real.sin (mockDist x y * 10 - (frameId : ℝ) * 0.1) * 0.1

/-- The depth value stored at pixel `(x, y)` for a given `frameId`:
`depth = uint16(800 + (dist + wave) * 3200)` followed by
`depth = min(depth, 4000)`. -/
noncomputable def generateMockDepthValue (frameId : Nat) (x : Fin 640) (y : Fin 480) :
    Nat :=
  min (Nat.floor ((800 : ℝ) + (mockDist x y + mockWave frameId x y) * 3200)) 4000

end KinectXR

namespace KinectXR

/-! ## Theorems -/

/-- Length of the RGB888 → BGRA8888 conversion output: 4 bytes per pixel. -/
theorem convertRGB888toBGRA8888_length (rgb : List Nat) (w h : Nat) :
    (convertRGB888toBGRA8888 rgb w h).length = w * h * 4 := by
  simp [convertRGB888toBGRA8888, List.length_flatMap, Function.comp_def,
    List.map_const', mul_comm]

/-- C3: `acquireSwapchainImage` fails with `CallOrderInvalid` when the
acquired-flag is set and otherwise outputs the current index, sets the flag
and advances the index by 1 mod 3; `waitSwapchainImage` and
`releaseSwapchainImage` fail with `CallOrderInvalid` when the flag is clear;
release clears the flag and leaves the index unchanged; on a fresh swapchain
five acquire-release rounds yield the index sequence 0, 1, 2, 0, 1. -/
theorem swapchain_acquire_release_protocol :
    (∀ d : SwapchainData, d.imageAcquired = true →
      acquireSwapchainImage d = (.CallOrderInvalid, none, d)) ∧
    (∀ d : SwapchainData, d.imageAcquired = false → d.imageCount = 3 →
      acquireSwapchainImage d =
        (.Success, some d.currentImageIndex,
          { d with imageAcquired := true,
                   currentImageIndex := (d.currentImageIndex + 1) % 3 })) ∧
    (∀ (cache : FrameCache) (d : SwapchainData), d.imageAcquired = false →
      waitSwapchainImage cache d = (.CallOrderInvalid, d)) ∧
    (∀ d : SwapchainData, d.imageAcquired = false →
      releaseSwapchainImage d = (.CallOrderInvalid, d)) ∧
    (∀ d : SwapchainData, d.imageAcquired = true →
      releaseSwapchainImage d = (.Success, { d with imageAcquired := false })) ∧
    acquireReleaseSeq (mkSwapchainData 640 480 80) 5 =
      [some 0, some 1, some 2, some 0, some 1] := by
  refine ⟨?_, ?_, ?_, ?_, ?_, ?_⟩
  · intro d h; simp [acquireSwapchainImage, h]
  · intro d h h3; simp [acquireSwapchainImage, h, h3]
  · intro cache d h; simp [waitSwapchainImage, h]
  · intro d h; simp [releaseSwapchainImage, h]
  · intro d h; simp [releaseSwapchainImage, h]
  · rfl

/-- C3 witness: the successful-acquire branch evaluated on a fresh
640×480 color swapchain. -/
theorem swapchain_acquire_release_protocol_witness :
    acquireSwapchainImage (mkSwapchainData 640 480 80) =
      (.Success, some (mkSwapchainData 640 480 80).currentImageIndex,
        { mkSwapchainData 640 480 80 with
            imageAcquired := true,
            currentImageIndex :=
              ((mkSwapchainData 640 480 80).currentImageIndex + 1) % 3 }) :=
  swapchain_acquire_release_protocol.2.1 (mkSwapchainData 640 480 80) rfl rfl

/-- C4: create → begin → end → destroy succeeds from a fresh instance
(with the device driver succeeding inside begin), enqueues exactly the six
session-state-changed events Ready, Synchronized, Visible, Focused,
Stopping, Idle in that order, `pollEvent` drains them in FIFO order
followed by `EventUnavailable`; `beginSession` (with a well-formed
primary-mono begin info) from any non-Ready state returns `SessionNotReady`
and `destroySession` from any running state returns `SessionRunning`. -/
theorem session_lifecycle_law :
    lcCreateInstance.1 = .Success ∧ lcGetSystem.1 = .Success ∧
    lcCreateSession.1 = .Success ∧ lcBeginSession.1 = .Success ∧
    lcEndSession.1 = .Success ∧ lcDestroySession.1 = .Success ∧
    (lookupInstance lcEndSession.2 1).map InstanceData.eventQueue =
      some [⟨1, .READY⟩, ⟨1, .SYNCHRONIZED⟩, ⟨1, .VISIBLE⟩, ⟨1, .FOCUSED⟩,
            ⟨1, .STOPPING⟩, ⟨1, .IDLE⟩] ∧
    pollSeq lcDestroySession.2 1 7 =
      [(.Success, some ⟨1, .READY⟩), (.Success, some ⟨1, .SYNCHRONIZED⟩),
       (.Success, some ⟨1, .VISIBLE⟩), (.Success, some ⟨1, .FOCUSED⟩),
       (.Success, some ⟨1, .STOPPING⟩), (.Success, some ⟨1, .IDLE⟩),
       (.EventUnavailable, none)] ∧
    (∀ (st : RuntimeState) (session : Nat) (info : XrSessionBeginInfo)
       (sd : SessionData) (deviceInit deviceStart : DeviceError),
      lookupSession st session = some sd →
      sd.state ≠ .READY →
      info.type = XR_TYPE_SESSION_BEGIN_INFO →
      info.primaryViewConfigurationType = XR_VIEW_CONFIGURATION_TYPE_PRIMARY_MONO →
      (beginSession deviceInit deviceStart st session info).1 = .SessionNotReady) ∧
    (∀ (st : RuntimeState) (session : Nat) (sd : SessionData),
      lookupSession st session = some sd →
      (sd.state = .SYNCHRONIZED ∨ sd.state = .VISIBLE ∨ sd.state = .FOCUSED) →
      (destroySession st session).1 = .SessionRunning) := by
  refine ⟨rfl, rfl, rfl, rfl, rfl, rfl, rfl, rfl, ?_, ?_⟩
  · intro st session info sd di ds hlook hstate htype hview
    simp [beginSession, htype, hlook, hview, hstate]
  · intro st session sd hlook hstate
    rcases hstate with h | h | h <;> simp [destroySession, hlook, h]

/-- C4 witness: from the Focused state reached by the scenario's begin,
another `beginSession` is `SessionNotReady` and `destroySession` is
`SessionRunning`. -/
theorem session_lifecycle_law_witness :
    (beginSession .None .None lcBeginSession.2 1 lcBeginInfo).1 = .SessionNotReady ∧
    (destroySession lcBeginSession.2 1).1 = .SessionRunning := by
  constructor
  · exact session_lifecycle_law.2.2.2.2.2.2.2.2.1 lcBeginSession.2 1 lcBeginInfo _
      .None .None rfl (by decide) rfl rfl
  · exact session_lifecycle_law.2.2.2.2.2.2.2.2.2 lcBeginSession.2 1 _
      rfl (by decide)

/-- C2 counterexample: after `createSession` the session is in the Ready
state — outside the running set — yet `endSession` succeeds instead of
returning `SessionNotRunning`, so a Ready session CAN be ended. -/
theorem endSession_from_ready_succeeds :
    (lookupSession lcCreateSession.2.2 1).map SessionData.state = some .READY ∧
    (endSession lcCreateSession.2.2 1).1 = .Success := ⟨rfl, rfl⟩

/-- C2 amended: for a live session, `endSession` returns `SessionNotRunning`
exactly when the session state is Idle or Stopping (and succeeds
otherwise); in particular a Ready session can be ended. -/
theorem endSession_not_running_iff (st : RuntimeState) (h : Nat) (sd : SessionData)
    (hlook : lookupSession st h = some sd) :
    ((endSession st h).1 = .SessionNotRunning ↔
      (sd.state = .IDLE ∨ sd.state = .STOPPING)) ∧
    ((endSession st h).1 = .Success ↔
      ¬(sd.state = .IDLE ∨ sd.state = .STOPPING)) := by
  by_cases hs : sd.state = .IDLE ∨ sd.state = .STOPPING <;>
    simp [endSession, hlook, hs]

/-- C2 amended witness: evaluated on the Ready session of the scenario. -/
theorem endSession_not_running_iff_witness :
    ((endSession lcCreateSession.2.2 1).1 = .SessionNotRunning ↔
      (SessionState.READY = .IDLE ∨ SessionState.READY = .STOPPING)) ∧
    ((endSession lcCreateSession.2.2 1).1 = .Success ↔
      ¬(SessionState.READY = .IDLE ∨ SessionState.READY = .STOPPING)) :=
  endSession_not_running_iff lcCreateSession.2.2 1 _ rfl

/-- C1: the texture upload performed inside `waitSwapchainImage` does NOT
write into the acquired slot.  On a fresh color swapchain with live textures
and a valid cached RGB frame, `acquireSwapchainImage` outputs index 0, but
the subsequent `waitSwapchainImage` leaves slot 0 untouched and writes the
converted frame into slot 1 (`currentImageIndex`, which acquire has already
advanced past the acquired slot). -/
theorem wait_uploads_past_acquired_slot :
    (acquireSwapchainImage uploadBugSwapchain).1 = .Success ∧
    (acquireSwapchainImage uploadBugSwapchain).2.1 = some 0 ∧
    (waitSwapchainImage uploadBugCache
        (acquireSwapchainImage uploadBugSwapchain).2.2).1 = .Success ∧
    (waitSwapchainImage uploadBugCache
        (acquireSwapchainImage uploadBugSwapchain).2.2).2.metalTextures.getD 0 none
      = some [7] ∧
    (waitSwapchainImage uploadBugCache
        (acquireSwapchainImage uploadBugSwapchain).2.2).2.metalTextures.getD 1 none
      = some (convertRGB888toBGRA8888 uploadBugCache.rgbData 640 480) ∧
    (convertRGB888toBGRA8888 uploadBugCache.rgbData 640 480).length = 1228800 := by
  refine ⟨rfl, rfl, rfl, rfl, rfl, ?_⟩
  rw [convertRGB888toBGRA8888_length]

/-- C7: the bridge depth producer increments the shared `frameId` by
exactly 1 (u32 arithmetic) per invocation, and the video producer updates
only the RGB buffer, RGB timestamp and RGB validity flag, leaving the
`frameId` and every depth-stream field unchanged. -/
theorem frame_cache_producer_effects :
    (∀ (cache : BridgeFrameCache) (data : List Nat) (ts : Nat),
      (onDepthFrame cache data ts).frameId = (cache.frameId + 1) % 2 ^ 32 ∧
      (onDepthFrame cache data ts).rgbData = cache.rgbData ∧
      (onDepthFrame cache data ts).rgbTimestamp = cache.rgbTimestamp ∧
      (onDepthFrame cache data ts).rgbValid = cache.rgbValid) ∧
    (∀ (cache : BridgeFrameCache) (data : List Nat) (ts : Nat),
      (onVideoFrame cache data ts).frameId = cache.frameId ∧
      (onVideoFrame cache data ts).depthData = cache.depthData ∧
      (onVideoFrame cache data ts).depthTimestamp = cache.depthTimestamp ∧
      (onVideoFrame cache data ts).depthValid = cache.depthValid ∧
      (onVideoFrame cache data ts).rgbData =
        data.take RGB_FRAME_SIZE ++ cache.rgbData.drop RGB_FRAME_SIZE ∧
      (onVideoFrame cache data ts).rgbTimestamp = ts ∧
      (onVideoFrame cache data ts).rgbValid = true) := by
  constructor
  · intro cache data ts
    exact ⟨rfl, rfl, rfl, rfl⟩
  · intro cache data ts
    exact ⟨rfl, rfl, rfl, rfl, rfl, rfl, rfl⟩

/-- C9: every broadcast binary frame is an 8-byte header — `frameId` as a
little-endian u32 in bytes 0-3, the stream type as a little-endian u16 in
bytes 4-5 (1 for RGB, 2 for depth), zero bytes 6-7 — followed by the pixel
payload of exactly 921600 (RGB) resp. 614400 (depth) bytes. -/
theorem bridge_binary_frame_format :
    (∀ (frameId : Nat) (data : List Nat), frameId < 2 ^ 32 →
      data.length = RGB_FRAME_SIZE →
      broadcastFrameMessage STREAM_TYPE_RGB data frameId =
        [frameId % 256, frameId / 2 ^ 8 % 256, frameId / 2 ^ 16 % 256,
         frameId / 2 ^ 24 % 256, 1, 0, 0, 0] ++ data ∧
      (broadcastFrameMessage STREAM_TYPE_RGB data frameId).length = 8 + 921600 ∧
      frameId % 256 + 2 ^ 8 * (frameId / 2 ^ 8 % 256) +
        2 ^ 16 * (frameId / 2 ^ 16 % 256) + 2 ^ 24 * (frameId / 2 ^ 24 % 256) = frameId) ∧
    (∀ (frameId : Nat) (data : List Nat), frameId < 2 ^ 32 →
      data.length = DEPTH_FRAME_SIZE →
      broadcastFrameMessage STREAM_TYPE_DEPTH data frameId =
        [frameId % 256, frameId / 2 ^ 8 % 256, frameId / 2 ^ 16 % 256,
         frameId / 2 ^ 24 % 256, 2, 0, 0, 0] ++ data ∧
      (broadcastFrameMessage STREAM_TYPE_DEPTH data frameId).length = 8 + 614400 ∧
      frameId % 256 + 2 ^ 8 * (frameId / 2 ^ 8 % 256) +
        2 ^ 16 * (frameId / 2 ^ 16 % 256) + 2 ^ 24 * (frameId / 2 ^ 24 % 256) = frameId) := by
  constructor
  · intro frameId data hf hl
    refine ⟨rfl, ?_, by omega⟩
    simp [broadcastFrameMessage, hl, RGB_FRAME_SIZE, FRAME_WIDTH, FRAME_HEIGHT]
  · intro frameId data hf hl
    refine ⟨rfl, ?_, by omega⟩
    simp [broadcastFrameMessage, hl, DEPTH_FRAME_SIZE, FRAME_WIDTH, FRAME_HEIGHT]

/-- C9 witness: both stream types evaluated at frame id 7 on all-zero
payloads of the correct size. -/
theorem bridge_binary_frame_format_witness :
    (broadcastFrameMessage STREAM_TYPE_RGB (List.replicate RGB_FRAME_SIZE 0) 7 =
        [7 % 256, 7 / 2 ^ 8 % 256, 7 / 2 ^ 16 % 256, 7 / 2 ^ 24 % 256, 1, 0, 0, 0] ++
          List.replicate RGB_FRAME_SIZE 0 ∧
      (broadcastFrameMessage STREAM_TYPE_RGB (List.replicate RGB_FRAME_SIZE 0) 7).length =
        8 + 921600 ∧
      7 % 256 + 2 ^ 8 * (7 / 2 ^ 8 % 256) + 2 ^ 16 * (7 / 2 ^ 16 % 256) +
        2 ^ 24 * (7 / 2 ^ 24 % 256) = 7) ∧
    (broadcastFrameMessage STREAM_TYPE_DEPTH (List.replicate DEPTH_FRAME_SIZE 0) 7 =
        [7 % 256, 7 / 2 ^ 8 % 256, 7 / 2 ^ 16 % 256, 7 / 2 ^ 24 % 256, 2, 0, 0, 0] ++
          List.replicate DEPTH_FRAME_SIZE 0 ∧
      (broadcastFrameMessage STREAM_TYPE_DEPTH (List.replicate DEPTH_FRAME_SIZE 0) 7).length =
        8 + 614400 ∧
      7 % 256 + 2 ^ 8 * (7 / 2 ^ 8 % 256) + 2 ^ 16 * (7 / 2 ^ 16 % 256) +
        2 ^ 24 * (7 / 2 ^ 24 % 256) = 7) :=
  ⟨bridge_binary_frame_format.1 7 (List.replicate RGB_FRAME_SIZE 0) (by decide)
      (List.length_replicate _ _),
   bridge_binary_frame_format.2 7 (List.replicate DEPTH_FRAME_SIZE 0) (by decide)
      (List.length_replicate _ _)⟩

/-- C5 counterexample: with only 100 ms elapsed since the last accepted
motor command, `motor.setLed` (valid state "green") and `motor.getStatus`
still call the driver and do not reply `RATE_LIMITED` — the claim's 500 ms
window does not cover these two handlers. -/
theorem motor_rate_limit_gap :
    handleMotorSetLed true 100 0 "green" .None .None =
      (some .motorStatus, [.setLED .Green, .getMotorStatus], 0) ∧
    handleMotorGetStatus true 100 0 .None =
      (some .motorStatus, [.getMotorStatus], 0) ∧
    (100 : Int) - 0 < 500 := by
  refine ⟨?_, rfl, by norm_num⟩
  rfl

/-- C5 amended: only `motor.setTilt` and `motor.reset` enforce the 500 ms
rate-limit window (replying `motor.error RATE_LIMITED` with no driver
call); `motor.setLed` and `motor.getStatus` never reply `RATE_LIMITED` and
call the driver whenever the device is connected (and, for setLed, the
state string is valid), regardless of the elapsed time. -/
theorem motor_rate_limit_amended :
    (∀ (nowMs lastMs angle : Int) (tr sr : DeviceError), nowMs - lastMs < 500 →
      handleMotorSetTilt true nowMs lastMs angle tr sr =
        (some (.motorError "RATE_LIMITED"), [], lastMs)) ∧
    (∀ (nowMs lastMs : Int) (tr sr : DeviceError), nowMs - lastMs < 500 →
      handleMotorReset true nowMs lastMs tr sr =
        (some (.motorError "RATE_LIMITED"), [], lastMs)) ∧
    (∀ (nowMs lastMs : Int) (s : String) (st : LEDState) (lr sr : DeviceError),
      parseLedState s = some st →
      (handleMotorSetLed true nowMs lastMs s lr sr).2.1 ≠ [] ∧
      (handleMotorSetLed true nowMs lastMs s lr sr).1 ≠
        some (.motorError "RATE_LIMITED")) ∧
    (∀ (nowMs lastMs : Int) (sr : DeviceError),
      (handleMotorGetStatus true nowMs lastMs sr).2.1 = [.getMotorStatus] ∧
      (handleMotorGetStatus true nowMs lastMs sr).1 ≠
        some (.motorError "RATE_LIMITED")) := by
  refine ⟨?_, ?_, ?_, ?_⟩
  · intro nowMs lastMs angle tr sr h
    simp [handleMotorSetTilt, h]
  · intro nowMs lastMs tr sr h
    simp [handleMotorReset, h]
  · intro nowMs lastMs s st lr sr hparse
    by_cases hl : lr = .None <;> by_cases hs : sr = .None <;>
      simp [handleMotorSetLed, hparse, hl, hs]
  · intro nowMs lastMs sr
    by_cases hs : sr = .None <;> simp [handleMotorGetStatus, hs]

/-- C5 amended witness: the rate-limited setTilt branch and the
un-rate-limited setLed branch evaluated at elapsed 100 ms. -/
theorem motor_rate_limit_amended_witness :
    handleMotorSetTilt true 100 0 5 .None .None =
      (some (.motorError "RATE_LIMITED"), [], 0) ∧
    ((handleMotorSetLed true 100 0 "green" .None .None).2.1 ≠ [] ∧
      (handleMotorSetLed true 100 0 "green" .None .None).1 ≠
        some (.motorError "RATE_LIMITED")) :=
  ⟨motor_rate_limit_amended.1 100 0 5 .None .None (by norm_num),
   motor_rate_limit_amended.2.2.1 100 0 "green" .Green .None .None rfl⟩

/-- C6 counterexample: `enumerateSwapchainFormats` with capacity 1 (non-zero
but below the required count 2) and a NULL buffer returns
`SizeInsufficient`, not `ValidationFailure` — the size check precedes the
null-buffer check. -/
theorem enumeration_null_buffer_not_validation :
    enumerateSwapchainFormats true 1 true none = (.SizeInsufficient, some 2, none) ∧
    (enumerateSwapchainFormats true 1 true none).1 ≠ .ValidationFailure := by
  exact ⟨rfl, by decide⟩

/-- C6 amended: each enumeration function follows the two-call idiom —
capacity 0 writes the required count and succeeds without touching the
buffer; non-zero capacity below the count writes the count and returns
`SizeInsufficient` (even for a null buffer, since the size check precedes
the null check); sufficient capacity fills the buffer, writes the count and
succeeds; and a null buffer is a validation failure only when the capacity
reaches the required count. -/
theorem two_call_idiom :
    (∀ buf, enumerateSwapchainFormats true 0 true buf = (.Success, some 2, buf)) ∧
    (∀ (cap : Nat) buf, 0 < cap → cap < 2 →
      enumerateSwapchainFormats true cap true buf = (.SizeInsufficient, some 2, buf)) ∧
    (∀ (cap : Nat) (fs : List Int), 2 ≤ cap →
      enumerateSwapchainFormats true cap true (some fs) =
        (.Success, some 2, some ([80, 13] ++ fs.drop 2))) ∧
    (∀ (cap : Nat), 2 ≤ cap →
      enumerateSwapchainFormats true cap true none = (.ValidationFailure, none, none)) ∧
    (∀ buf, enumerateReferenceSpaces true 0 true buf = (.Success, some 3, buf)) ∧
    (∀ (cap : Nat) buf, 0 < cap → cap < 3 →
      enumerateReferenceSpaces true cap true buf = (.SizeInsufficient, some 3, buf)) ∧
    (∀ (cap : Nat) (ss : List XrReferenceSpaceType), 3 ≤ cap →
      enumerateReferenceSpaces true cap true (some ss) =
        (.Success, some 3, some ([.View, .Local, .Stage] ++ ss.drop 3))) ∧
    (∀ (cap : Nat), 3 ≤ cap →
      enumerateReferenceSpaces true cap true none = (.ValidationFailure, none, none)) ∧
    (∀ buf, xrEnumerateInstanceExtensionProperties false 0 true buf =
      (.Success, some 2, buf)) ∧
    (∀ (cap : Nat) buf, 0 < cap → cap < 2 →
      xrEnumerateInstanceExtensionProperties false cap true buf =
        (.SizeInsufficient, some 2, buf)) ∧
    (∀ (cap : Nat) (p0 p1 : XrExtensionProperties) (rest : List XrExtensionProperties),
      2 ≤ cap →
      p0.type = XR_TYPE_EXTENSION_PROPERTIES →
      p1.type = XR_TYPE_EXTENSION_PROPERTIES →
      xrEnumerateInstanceExtensionProperties false cap true (some (p0 :: p1 :: rest)) =
        (.Success, some 2,
          some ({ p0 with extensionName := "XR_KHR_composition_layer_depth",
                          extensionVersion := 1 } ::
                { p1 with extensionName := "XR_KHR_metal_enable",
                          extensionVersion := 1 } :: rest))) ∧
    (∀ (cap : Nat), 2 ≤ cap →
      xrEnumerateInstanceExtensionProperties false cap true none =
        (.ValidationFailure, none, none)) := by
  refine ⟨?_, ?_, ?_, ?_, ?_, ?_, ?_, ?_, ?_, ?_, ?_, ?_⟩
  · intro buf; rfl
  · intro cap buf h0 h2
    have hc : cap ≠ 0 := Nat.pos_iff_ne_zero.mp h0
    simp [enumerateSwapchainFormats, hc, h2]
  · intro cap fs h
    have hc : cap ≠ 0 := by omega
    have h2 : ¬cap < 2 := by omega
    simp [enumerateSwapchainFormats, hc, h2]
  · intro cap h
    have hc : cap ≠ 0 := by omega
    have h2 : ¬cap < 2 := by omega
    simp [enumerateSwapchainFormats, hc, h2]
  · intro buf; rfl
  · intro cap buf h0 h3
    have hc : cap ≠ 0 := Nat.pos_iff_ne_zero.mp h0
    simp [enumerateReferenceSpaces, hc, h3]
  · intro cap ss h
    have hc : cap ≠ 0 := by omega
    have h3 : ¬cap < 3 := by omega
    simp [enumerateReferenceSpaces, hc, h3]
  · intro cap h
    have hc : cap ≠ 0 := by omega
    have h3 : ¬cap < 3 := by omega
    simp [enumerateReferenceSpaces, hc, h3]
  · intro buf; rfl
  · intro cap buf h0 h2
    have hc : cap ≠ 0 := Nat.pos_iff_ne_zero.mp h0
    simp [xrEnumerateInstanceExtensionProperties, hc, h2]
  · intro cap p0 p1 rest h hp0 hp1
    have hc : cap ≠ 0 := by omega
    have h2 : ¬cap < 2 := by omega
    simp [xrEnumerateInstanceExtensionProperties, hc, h2, fillExtensionProps,
      supportedExtensions, hp0, hp1]
  · intro cap h
    have hc : cap ≠ 0 := by omega
    have h2 : ¬cap < 2 := by omega
    simp [xrEnumerateInstanceExtensionProperties, hc, h2]

/-- C6 amended witness: a size-insufficient call with a null buffer and a
successful extension-properties fill on a well-formed two-entry buffer. -/
theorem two_call_idiom_witness :
    enumerateSwapchainFormats true 1 true none = (.SizeInsufficient, some 2, none) ∧
    xrEnumerateInstanceExtensionProperties false 2 true
        (some [⟨XR_TYPE_EXTENSION_PROPERTIES, "", 0⟩,
               ⟨XR_TYPE_EXTENSION_PROPERTIES, "", 0⟩]) =
      (.Success, some 2,
        some [⟨XR_TYPE_EXTENSION_PROPERTIES, "XR_KHR_composition_layer_depth", 1⟩,
              ⟨XR_TYPE_EXTENSION_PROPERTIES, "XR_KHR_metal_enable", 1⟩]) :=
  ⟨two_call_idiom.2.1 1 none (by norm_num) (by norm_num),
   two_call_idiom.2.2.2.2.2.2.2.2.2.2.1 2
     ⟨XR_TYPE_EXTENSION_PROPERTIES, "", 0⟩ ⟨XR_TYPE_EXTENSION_PROPERTIES, "", 0⟩ []
     (le_refl 2) rfl rfl⟩

/-- C10: `enumerateSwapchainImages` on a valid swapchain with capacity ≥ 3
and a non-null buffer returns `ValidationFailure` without writing any
element when the first element's type tag is not
`XR_TYPE_SWAPCHAIN_IMAGE_METAL_KHR`; only the first tag is inspected — when
it is correct, all three elements (whatever the tags of elements 1 and 2)
are overwritten with the tag, a null `next` and the texture handles. -/
theorem enumerate_images_checks_first_tag_only :
    (∀ (d : SwapchainData) (cap : Nat) (imgs : List XrSwapchainImageMetalKHR),
      d.imageCount = 3 → 3 ≤ cap →
      (imgs.headD ⟨0, 0, none⟩).type ≠ XR_TYPE_SWAPCHAIN_IMAGE_METAL_KHR →
      enumerateSwapchainImages d cap true (some imgs) =
        (.ValidationFailure, none, some imgs)) ∧
    (∀ (d : SwapchainData) (cap : Nat) (i0 i1 i2 : XrSwapchainImageMetalKHR)
       (rest : List XrSwapchainImageMetalKHR),
      d.imageCount = 3 → 3 ≤ cap →
      i0.type = XR_TYPE_SWAPCHAIN_IMAGE_METAL_KHR →
      enumerateSwapchainImages d cap true (some (i0 :: i1 :: i2 :: rest)) =
        (.Success, some 3,
          some (⟨XR_TYPE_SWAPCHAIN_IMAGE_METAL_KHR, 0, d.metalTextures.getD 0 none⟩ ::
                ⟨XR_TYPE_SWAPCHAIN_IMAGE_METAL_KHR, 0, d.metalTextures.getD 1 none⟩ ::
                ⟨XR_TYPE_SWAPCHAIN_IMAGE_METAL_KHR, 0, d.metalTextures.getD 2 none⟩ ::
                rest))) := by
  constructor
  · intro d cap imgs h3 hcap htag
    have hc : cap ≠ 0 := by omega
    have hlt : ¬cap < d.imageCount := by omega
    cases imgs <;>
      · simp [enumerateSwapchainImages, hc, hlt]
        simpa [List.headD] using htag
  · intro d cap i0 i1 i2 rest h3 hcap htag
    have hc : cap ≠ 0 := by omega
    have hrange : List.range 3 = [0, 1, 2] := by decide
    simp [enumerateSwapchainImages, hc, htag, h3, fillMetalImages, hrange]
    omega

/-- C10 witness: both branches evaluated on a fresh color swapchain with a
bad-tag buffer and a good-tag buffer whose later tags are garbage. -/
theorem enumerate_images_checks_first_tag_only_witness :
    enumerateSwapchainImages (mkSwapchainData 640 480 80) 3 true
        (some [⟨0, 0, none⟩, ⟨0, 0, none⟩, ⟨0, 0, none⟩]) =
      (.ValidationFailure, none, some [⟨0, 0, none⟩, ⟨0, 0, none⟩, ⟨0, 0, none⟩]) ∧
    enumerateSwapchainImages (mkSwapchainData 640 480 80) 3 true
        (some [⟨XR_TYPE_SWAPCHAIN_IMAGE_METAL_KHR, 0, none⟩, ⟨5, 0, none⟩, ⟨9, 0, none⟩]) =
      (.Success, some 3,
        some [⟨XR_TYPE_SWAPCHAIN_IMAGE_METAL_KHR, 0,
                (mkSwapchainData 640 480 80).metalTextures.getD 0 none⟩,
              ⟨XR_TYPE_SWAPCHAIN_IMAGE_METAL_KHR, 0,
                (mkSwapchainData 640 480 80).metalTextures.getD 1 none⟩,
              ⟨XR_TYPE_SWAPCHAIN_IMAGE_METAL_KHR, 0,
                (mkSwapchainData 640 480 80).metalTextures.getD 2 none⟩]) :=
  ⟨enumerate_images_checks_first_tag_only.1 (mkSwapchainData 640 480 80) 3
      [⟨0, 0, none⟩, ⟨0, 0, none⟩, ⟨0, 0, none⟩] rfl (le_refl 3) (by decide),
   enumerate_images_checks_first_tag_only.2 (mkSwapchainData 640 480 80) 3
      ⟨XR_TYPE_SWAPCHAIN_IMAGE_METAL_KHR, 0, none⟩ ⟨5, 0, none⟩ ⟨9, 0, none⟩ []
      rfl (le_refl 3) rfl⟩

/-- C8 counterexample: at the image centre pixel (320, 240) with frame id
16 the generated depth value is below 800 mm — the generator only clamps
the upper bound, so the claimed interval [800, 4000] does not hold. -/
theorem mock_depth_below_800 :
    generateMockDepthValue 16 ⟨320, by norm_num⟩ ⟨240, by norm_num⟩ < 800 := by
  have hdx : mockDx ⟨320, by norm_num⟩ = 0 := by
    unfold mockDx
    norm_num
  have hdy : mockDy ⟨240, by norm_num⟩ = 0 := by
    unfold mockDy
    norm_num
  have hdist : mockDist ⟨320, by norm_num⟩ ⟨240, by norm_num⟩ = 0 := by
    unfold mockDist
    rw [hdx, hdy]
    norm_num
  have hsinpos : 0 < Real.sin 1.6 :=
    Real.sin_pos_of_pos_of_lt_pi (by norm_num) (by linarith [Real.pi_gt_three])
  have hsinle : Real.sin 1.6 ≤ 1 := Real.sin_le_one _
  have harg : (800 : ℝ) +
      (mockDist ⟨320, by norm_num⟩ ⟨240, by norm_num⟩ +
        mockWave 16 ⟨320, by norm_num⟩ ⟨240, by norm_num⟩) * 3200 =
      800 - 320 * Real.sin 1.6 := by
    unfold mockWave
    rw [hdist]
    have h16 : (0 : ℝ) * 10 - ((16 : Nat) : ℝ) * 0.1 = -(1.6 : ℝ) := by
      norm_num
    rw [h16, Real.sin_neg]
    ring
  have hfloor :
      Nat.floor ((800 : ℝ) - 320 * Real.sin 1.6) < 800 := by
    rw [Nat.floor_lt (by nlinarith)]
    push_cast
    nlinarith
  calc generateMockDepthValue 16 ⟨320, by norm_num⟩ ⟨240, by norm_num⟩
      ≤ Nat.floor ((800 : ℝ) +
          (mockDist ⟨320, by norm_num⟩ ⟨240, by norm_num⟩ +
            mockWave 16 ⟨320, by norm_num⟩ ⟨240, by norm_num⟩) * 3200) :=
        min_le_left _ _
    _ = Nat.floor ((800 : ℝ) - 320 * Real.sin 1.6) := by rw [harg]
    _ < 800 := hfloor

/-- C8 amended: every mock depth value lies in [480, 4000] — the clamp
enforces only the upper bound 4000, and the sine term can push the value as
low as 480 mm, below the claimed minimum of 800 mm. -/
theorem mock_depth_range (frameId : Nat) (x : Fin 640) (y : Fin 480) :
    480 ≤ generateMockDepthValue frameId x y ∧
    generateMockDepthValue frameId x y ≤ 4000 := by
  unfold generateMockDepthValue
  refine ⟨le_min (Nat.le_floor ?_) (by norm_num), min_le_right _ _⟩
  have hd : 0 ≤ mockDist x y := Real.sqrt_nonneg _
  have hs : -1 ≤ Real.sin (mockDist x y * 10 - (frameId : ℝ) * 0.1) :=
    Real.neg_one_le_sin _
  unfold mockWave
  push_cast
  nlinarith

end KinectXR
